import Mathlib

/-!
Verification of the libfiemap image manager
(src/libfiemap/image_manager.cpp) against its natural-language
specification.

The embedding models file contents and device names as lists of
characters (type Str below).  External collaborators (libbase file and
property helpers, the metadata store, device-mapper and loop-device
kernel control) are modelled as oracles recorded in environment
structures; the control flow of the functions under study is translated
statement by statement from the source.  Side effects on kernel objects
and on the per-image status record are tracked in explicit state
records, and teardown/rollback calls are additionally recorded in an
ordered action trace so that ordering claims can be stated.
-/

namespace Fiemap

/-- File contents, device paths and image names, as character lists. -/
abbrev Str := List Char

/-- android base Split with a single-character delimiter: splits at every
occurrence of the delimiter, keeping empty tokens, and yields one (empty)
token for the empty string. -/
def strSplit (c : Char) : Str → List Str
  | [] => [[]]
  | a :: rest =>
    if a = c then [] :: strSplit c rest
    else
      match strSplit c rest with
      | [] => [[a]]
      | h :: t => (a :: h) :: t

/-- android base Join with a single-character separator. -/
def strJoin (c : Char) : List Str → Str
  | [] => []
  | [l] => l
  | l :: ls => l ++ c :: strJoin c ls

/-- The status line written for a device-mapper step: "dm:" followed by the
device name (image_manager.cpp lines 261 and 368). -/
def dmLine (n : Str) : Str := 'd' :: 'm' :: ':' :: n

/-- The status line written for a loop-device step: "loop:" followed by the
device path (image_manager.cpp lines 370 and 444). -/
def loopLine (p : Str) : Str := 'l' :: 'o' :: 'o' :: 'p' :: ':' :: p

/-- Volatile and kernel state relevant to one image name:
the contents of its status record file (none when the file is absent or
unreadable), the value of its gsid.mapped_image property (empty list when
unset), the set of live device-mapper node names, and the set of attached
loop-device paths. -/
structure MapState where
  statusFile : Option Str
  prop : Str
  dmDevices : List Str
  loops : List Str
deriving DecidableEq

/-- External calls performed during mapping or unmapping, in order. -/
inductive Action where
  | dmDelete (n : Str)
  | loopDetach (p : Str)
  | removeStatus
  | clearProp
  | forcedUnmap
  | dtorUnmap
deriving DecidableEq

/-- ImageManager IsImageMapped: the property is consulted first; when it is
empty the device-mapper state of a node with the image name is the
fallback (image_manager.cpp lines 98 to 107). -/
def IsImageMapped (name : Str) (s : MapState) : Bool :=
  if s.prop = [] then decide (name ∈ s.dmDevices) else true

/-- Success oracles for the external calls made while unmapping. -/
structure UnmapEnv where
  dmDeleteOk : Str → Bool
  loopDetachOk : Str → Bool
  removeStatusOk : Bool
  clearPropOk : Bool

/-- Result of an unmap run: final state, boolean outcome, action trace. -/
structure UnmapRes where
  st : MapState
  ok : Bool
  tr : List Action
deriving DecidableEq

/-- Tag of one parsed status line. -/
inductive StepTag where
  | dm
  | loop
  | skip
deriving DecidableEq

/-- Parsing of one status line in UnmapImageDevice (lines 534 to 552):
split at the colon; a line that does not have exactly two fields, or whose
tag is neither dm nor loop, is logged and skipped. -/
def parseLine (line : Str) : StepTag × Str :=
  match strSplit ':' line with
  | [tag, val] =>
    if tag = ['d', 'm'] then (StepTag.dm, val)
    else if tag = ['l', 'o', 'o', 'p'] then (StepTag.loop, val)
    else (StepTag.skip, [])
  | _ => (StepTag.skip, [])

/-- The per-line teardown loop of UnmapImageDevice (lines 533 to 553).
A dm step deletes the named device-mapper node and aborts the whole loop
on failure; a loop step detaches best-effort (the result of Detach is
ignored); malformed or unknown lines are skipped. -/
def unmapLines (env : UnmapEnv) : MapState → List Str → UnmapRes
  | s, [] => ⟨s, true, []⟩
  | s, line :: rest =>
    let pv := parseLine line
    match pv.1 with
    | StepTag.dm =>
      if env.dmDeleteOk pv.2 then
        let r := unmapLines env { s with dmDevices := s.dmDevices.erase pv.2 } rest
        ⟨r.st, r.ok, Action.dmDelete pv.2 :: r.tr⟩
      else ⟨s, false, [Action.dmDelete pv.2]⟩
    | StepTag.loop =>
      let s1 := if env.loopDetachOk pv.2 then { s with loops := s.loops.erase pv.2 } else s
      let r := unmapLines env s1 rest
      ⟨r.st, r.ok, Action.loopDetach pv.2 :: r.tr⟩
    | StepTag.skip => unmapLines env s rest

/-- ImageManager UnmapImageDevice(name, force) (lines 517 to 563).
Without force the image must currently be considered mapped; the status
record is then read (failure to read aborts with no effect), replayed line
by line, and on completion of the replay the status record is removed and
the property cleared, both best-effort. -/
def UnmapImageDevice (env : UnmapEnv) (name : Str) (force : Bool) (s : MapState) : UnmapRes :=
  if !force && !(IsImageMapped name s) then ⟨s, false, []⟩
  else
    match s.statusFile with
    | none => ⟨s, false, []⟩
    | some status =>
      let r := unmapLines env s (strSplit '\n' status)
      if !r.ok then ⟨r.st, false, r.tr⟩
      else
        let st1 := { r.st with statusFile := if env.removeStatusOk then none else r.st.statusFile }
        let st2 := { st1 with prop := if env.clearPropOk then [] else st1.prop }
        ⟨st2, true, r.tr ++ [Action.removeStatus, Action.clearProp]⟩

/-- A mapping operation result: final state, boolean outcome, the value
left in the output path parameter (none when the operation failed before
delivering one), and the trace of teardown calls it performed. -/
structure MapRes where
  st : MapState
  ok : Bool
  path : Option Str
  tr : List Action
deriving DecidableEq

/-- Oracles for the external calls of MapWithDmLinear: metadata open,
CreateLogicalPartition (which yields the node path), and the status-file
write keyed on the content written. -/
structure DmLinearEnv where
  metadataOk : Bool
  createOk : Bool
  dmPath : Str
  writeOk : Str → Bool

/-- ImageManager MapWithDmLinear (lines 237 to 269): create the dm node
from the image extents, then write the single-line status record; a
failed write destroys the just-created node before returning failure. -/
def MapWithDmLinear (env : DmLinearEnv) (name : Str) (s : MapState) : MapRes :=
  if !env.metadataOk then ⟨s, false, none, []⟩
  else if !env.createOk then ⟨s, false, none, []⟩
  else
    let s1 : MapState := { s with dmDevices := name :: s.dmDevices }
    let status_string := dmLine name
    if !env.writeOk status_string then
      ⟨{ s1 with dmDevices := s1.dmDevices.erase name }, false, none, []⟩
    else
      ⟨{ s1 with statusFile := some status_string }, true, some env.dmPath, []⟩

/-- The logical sector size used by liblp metadata (LP_SECTOR_SIZE). -/
def LP_SECTOR_SIZE : Nat := 512

/-- One dm-linear table segment as emplaced in MapWithLoopDeviceList. -/
structure DmTargetLinear where
  startSector : Nat
  numSectors : Nat
  blockDevice : Str
  offset : Nat
deriving DecidableEq

/-- The table-building loop of MapWithLoopDeviceList (lines 335 to 358):
each listed block device is opened (failure aborts), contributes a
segment of min(its size in sectors, sectors still needed), and the loop
stops once no sectors are needed; running out of devices simply ends the
loop. -/
def buildLoopTable (openOk : Str → Bool) (devSize : Str → Nat) :
    List Str → Nat → Nat → Option (List DmTargetLinear)
  | [], _, _ => some []
  | dev :: rest, start_sector, sectors_needed =>
    if !openOk dev then none
    else
      let file_sectors := devSize dev / LP_SECTOR_SIZE
      let segment_size := min file_sectors sectors_needed
      let entry : DmTargetLinear := ⟨start_sector, segment_size, dev, 0⟩
      if sectors_needed - segment_size = 0 then some [entry]
      else
        match buildLoopTable openOk devSize rest (start_sector + segment_size)
            (sectors_needed - segment_size) with
        | none => none
        | some t => some (entry :: t)

/-- Oracles for MapWithLoopDeviceList: metadata open, partition lookup,
partition size, per-device open and size, CreateDevice over the table
(yielding the dm node path), and the status-file write. -/
structure LoopListEnv where
  metadataOk : Bool
  partitionFound : Bool
  partitionSize : Nat
  openOk : Str → Bool
  devSize : Str → Nat
  createDeviceOk : Bool
  dmPath : Str
  writeOk : Str → Bool

/-- ImageManager MapWithLoopDeviceList (lines 310 to 380): stitch the
given loop devices with a dm-linear table, then write the multi-line
status record, dm line first, one loop line per device in order; a failed
write deletes the just-created dm node before returning failure. -/
def MapWithLoopDeviceList (env : LoopListEnv) (name : Str) (device_list : List Str)
    (s : MapState) : MapRes :=
  if !env.metadataOk then ⟨s, false, none, []⟩
  else if !env.partitionFound then ⟨s, false, none, []⟩
  else if env.partitionSize % LP_SECTOR_SIZE ≠ 0 then ⟨s, false, none, []⟩
  else
    match buildLoopTable env.openOk env.devSize device_list 0
        (env.partitionSize / LP_SECTOR_SIZE) with
    | none => ⟨s, false, none, []⟩
    | some _table =>
      if !env.createDeviceOk then ⟨s, false, none, []⟩
      else
        let s1 : MapState := { s with dmDevices := name :: s.dmDevices }
        let status_message := strJoin '\n' (dmLine name :: device_list.map loopLine)
        if !env.writeOk status_message then
          ⟨{ s1 with dmDevices := s1.dmDevices.erase name }, false, none, []⟩
        else
          ⟨{ s1 with statusFile := some status_message }, true, some env.dmPath, []⟩

/-- The loop-attachment loop of MapWithLoopDevice (lines 413 to 423): each
split file is attached in file order, and the loop breaks at the first
attachment failure, leaving the devices attached so far. -/
def attachLoops (attach : Str → Option Str) : List Str → List Str
  | [] => []
  | f :: rest =>
    match attach f with
    | none => []
    | some d => d :: attachLoops attach rest

/-- Oracles for MapWithLoopDevice: the split-file list, per-file loop
attachment (yielding the loop device path), per-device direct-io enabling,
the nested MapWithLoopDeviceList environment, and the status-file write at
the tail of the function. -/
structure LoopEnv where
  fileList : Option (List Str)
  attach : Str → Option Str
  directIoOk : Str → Bool
  listEnv : LoopListEnv
  writeOk : Str → Bool

/-- ImageManager MapWithLoopDevice (lines 397 to 455), translated exactly
as written: attach every split file as a loop device (an auto-detach guard
releases them on every failure exit), enable direct io, call
MapWithLoopDeviceList when more than one loop device resulted, and then,
on every surviving path, write a single loop line naming the last loop
device to the status file and return that device as the path.  The model
uses getLastD for the back() call, which the source only reaches with a
nonempty device vector. -/
def MapWithLoopDevice (env : LoopEnv) (name : Str) (s : MapState) : MapRes :=
  match env.fileList with
  | none => ⟨s, false, none, []⟩
  | some file_list =>
    let loop_devices := attachLoops env.attach file_list
    let s1 : MapState := { s with loops := s.loops ++ loop_devices }
    if loop_devices.length ≠ file_list.length then
      ⟨{ s1 with loops := s.loops }, false, none, []⟩
    else if !(loop_devices.all env.directIoOk) then
      ⟨{ s1 with loops := s.loops }, false, none, []⟩
    else
      let step : MapRes :=
        if loop_devices.length > 1 then MapWithLoopDeviceList env.listEnv name loop_devices s1
        else ⟨s1, true, none, []⟩
      if !step.ok then
        ⟨{ step.st with loops := s.loops }, false, none, []⟩
      else
        let status_message := loopLine (loop_devices.getLastD [])
        if !env.writeOk status_message then
          ⟨{ step.st with loops := s.loops }, false, none, []⟩
        else
          ⟨{ step.st with statusFile := some status_message }, true,
            some (loop_devices.getLastD []), []⟩

/-- Oracles for MapImageDevice: GetBlockDeviceForFile outcome (success and
whether device-mapper can be used), the two strategy environments, the
SetProperty outcome, and the environment of the forced unmap issued when
SetProperty fails. -/
structure MapEnv where
  getBlockDeviceOk : Bool
  canUseDm : Bool
  dmEnv : DmLinearEnv
  loopEnv : LoopEnv
  setPropOk : Bool
  unmapEnv : UnmapEnv

/-- ImageManager MapImageDevice (lines 457 to 497): reject when already
mapped, choose the strategy from GetBlockDeviceForFile, and on mapping
success record the path in the mapped-image property; when that recording
fails, UnmapImageDevice(name, true) is invoked and failure returned. -/
def MapImageDevice (env : MapEnv) (name : Str) (s : MapState) : MapRes :=
  if IsImageMapped name s then ⟨s, false, none, []⟩
  else if !env.getBlockDeviceOk then ⟨s, false, none, []⟩
  else
    let r := if env.canUseDm then MapWithDmLinear env.dmEnv name s
             else MapWithLoopDevice env.loopEnv name s
    if !r.ok then ⟨r.st, false, none, r.tr⟩
    else
      let path := r.path.getD []
      if !env.setPropOk then
        let u := UnmapImageDevice env.unmapEnv name true r.st
        ⟨u.st, false, none, Action.forcedUnmap :: u.tr⟩
      else
        ⟨{ r.st with prop := path }, true, some path, r.tr⟩

/-- Oracles for MappedDevice Open: the mapping environment, the outcome of
opening a read-write descriptor on the mapped path, and the environment of
the unmap performed by the destructor when that open fails. -/
structure OpenEnv where
  mapEnv : MapEnv
  openFdOk : Bool
  unmapEnv : UnmapEnv

/-- MappedDevice Open (lines 600 to 624): map the image; on mapping
failure return null.  Otherwise construct the guard, which opens the
returned path read-write; when the descriptor is invalid the function
returns null, and destroying the just-constructed guard runs the
destructor, which calls UnmapImageDevice(name) without force.  The result
is the opened device path (none for null), the final state, and the trace. -/
def MappedDevice.Open (env : OpenEnv) (name : Str) (s : MapState) :
    Option Str × MapState × List Action :=
  let r := MapImageDevice env.mapEnv name s
  if !r.ok then (none, r.st, r.tr)
  else if !env.openFdOk then
    let u := UnmapImageDevice env.unmapEnv name false r.st
    (none, u.st, r.tr ++ Action.dtorUnmap :: u.tr)
  else (some (r.path.getD []), r.st, r.tr)

/-- Multi-image view of the store, for the operations that traverse the
persisted metadata: whether the metadata store exists, the partition names
it lists, the set of image names currently considered mapped by
IsImageMapped, the images whose backing split files are on disk, the
images with a status record, and the images with a metadata entry. -/
structure Store where
  metadataExists : Bool
  partitions : List Str
  mapped : List Str
  images : List Str
  statusRecs : List Str
  metaEntries : List Str
deriving DecidableEq

/-- Oracles for the external removals performed by DeleteBackingImage:
RemoveSplitFiles, RemoveFileIfExists on the status record, and
RemoveImageMetadata, each keyed by image name. -/
structure DeleteEnv where
  removeSplitFilesOk : Str → Bool
  removeStatusOk : Str → Bool
  removeMetadataOk : Str → Bool

/-- ImageManager DeleteBackingImage (lines 212 to 233): refuse while the
image is mapped; removing the split files is fatal on failure; removing
the status record is best-effort; the result is that of removing the
metadata entry. -/
def DeleteBackingImage (env : DeleteEnv) (store : Store) (name : Str) : Store × Bool :=
  if name ∈ store.mapped then (store, false)
  else if !env.removeSplitFilesOk name then (store, false)
  else
    let st1 := { store with images := store.images.erase name }
    let st2 :=
      if env.removeStatusOk name then { st1 with statusRecs := st1.statusRecs.erase name }
      else st1
    if env.removeMetadataOk name then
      ({ st2 with metaEntries := st2.metaEntries.erase name }, true)
    else (st2, false)

/-- The accumulation loop of RemoveAllImages (lines 574 to 578): every
partition is deleted in turn and the boolean outcomes are and-accumulated,
so a failure does not stop the remaining deletions. -/
def deleteAllImages (env : DeleteEnv) : Store → List Str → Store × Bool
  | store, [] => (store, true)
  | store, p :: rest =>
    let d := DeleteBackingImage env store p
    let r := deleteAllImages env d.1 rest
    (r.1, d.2 && r.2)

/-- Oracles for RemoveAllImages: the per-image delete oracles, the
OpenMetadata outcome and the RemoveAllMetadata outcome. -/
structure RemoveAllEnv where
  del : DeleteEnv
  openMetadataOk : Bool
  removeAllMetadataOk : Bool

/-- Effect of a RemoveAllMetadata call on the store model. -/
def removeAllMetadataEff (ok : Bool) (store : Store) : Store :=
  if ok then { store with metadataExists := false, metaEntries := [] } else store

/-- Result of RemoveAllImages: the final store, the returned boolean, and
whether RemoveAllMetadata was invoked at all. -/
structure RemoveAllRes where
  store : Store
  ok : Bool
  metaRemovalAttempted : Bool
deriving DecidableEq

/-- ImageManager RemoveAllImages (lines 565 to 580): trivially succeed
when no metadata exists; when the metadata cannot be opened, fall back to
removing all metadata; otherwise delete every listed image, accumulating
failures, and finish with ok AND RemoveAllMetadata, whose short-circuit
evaluation skips the metadata removal whenever some deletion failed. -/
def RemoveAllImages (env : RemoveAllEnv) (store : Store) : RemoveAllRes :=
  if !store.metadataExists then ⟨store, true, false⟩
  else if !env.openMetadataOk then
    ⟨removeAllMetadataEff env.removeAllMetadataOk store, env.removeAllMetadataOk, true⟩
  else
    let d := deleteAllImages env.del store store.partitions
    if d.2 then
      ⟨removeAllMetadataEff env.removeAllMetadataOk d.1, env.removeAllMetadataOk, true⟩
    else ⟨d.1, false, false⟩

/-- Whether the needle is a prefix of the haystack, as in android base
StartsWith. -/
def strStarts : Str → Str → Bool
  | [], _ => true
  | _ :: _, [] => false
  | a :: as, b :: bs => a = b && strStarts as bs

/-- The device path prefix that identifies device-mapper-backed storage in
CreateBackingImage (line 144). -/
def dmBlockDevPrefix : Str := "/dev/block/dm-".toList

/-- The designated test metadata directory kTestImageMetadataDir. -/
def kTestImageMetadataDir : Str := "/metadata/gsi/test".toList

/-- Oracles for CreateBackingImage: SplitFiemap Create outcome, the device
path reported by GetDevicePathForFile, the metadata directory this manager
was opened with, the UpdateMetadata outcome, the ZeroFillNewImage outcome,
and the delete oracles used when zero-fill fails. -/
structure CreateEnv where
  splitCreateOk : Bool
  devicePath : Str
  metadataDir : Str
  updateMetadataOk : Bool
  zeroFillOk : Bool
  del : DeleteEnv

/-- ImageManager CreateBackingImage (lines 129 to 165): allocate the split
files; reject device-mapper-backed storage outside the test directory,
removing the split files; then persist the metadata entry, returning
failure with no cleanup when UpdateMetadata fails; finally, when zero-fill
was requested and fails, delete the whole backing image. -/
def CreateBackingImage (env : CreateEnv) (store : Store) (name : Str) (zeroFill : Bool) :
    Store × Bool :=
  if !env.splitCreateOk then (store, false)
  else
    let st1 := { store with images := name :: store.images }
    if strStarts dmBlockDevPrefix env.devicePath &&
        !(strStarts kTestImageMetadataDir env.metadataDir) then
      ({ st1 with images := st1.images.erase name }, false)
    else if !env.updateMetadataOk then (st1, false)
    else
      let st2 := { st1 with metaEntries := name :: st1.metaEntries }
      if zeroFill then
        if !env.zeroFillOk then ((DeleteBackingImage env.del st2 name).1, false)
        else (st2, true)
      else (st2, true)

theorem strSplit_not_mem (c : Char) (s : Str) (h : c ∉ s) : strSplit c s = [s] := by
  induction s with
  | nil => rfl
  | cons x xs ih =>
    have hx : ¬ x = c := fun hc => h (hc ▸ List.mem_cons_self x xs)
    have hxs : c ∉ xs := fun hc => h (List.mem_cons_of_mem _ hc)
    simp only [strSplit, if_neg hx, ih hxs]

theorem strSplit_append (c : Char) (a t : Str) (ha : c ∉ a) :
    strSplit c (a ++ c :: t) = a :: strSplit c t := by
  induction a with
  | nil => simp [strSplit]
  | cons x xs ih =>
    have hx : ¬ x = c := fun hc => ha (hc ▸ List.mem_cons_self x xs)
    have hxs : c ∉ xs := fun hc => ha (List.mem_cons_of_mem _ hc)
    simp only [List.cons_append, strSplit, if_neg hx, List.append_eq, ih hxs]

theorem strSplit_join (c : Char) (ls : List Str) (h : ∀ l ∈ ls, c ∉ l) (hne : ls ≠ []) :
    strSplit c (strJoin c ls) = ls := by
  induction ls with
  | nil => exact absurd rfl hne
  | cons l ls ih =>
    cases ls with
    | nil => simpa [strJoin] using strSplit_not_mem c l (h l (by simp))
    | cons l2 ls2 =>
      rw [show strJoin c (l :: l2 :: ls2) = l ++ c :: strJoin c (l2 :: ls2) from rfl]
      rw [strSplit_append c l _ (h l (by simp))]
      rw [ih (fun q hq => h q (List.mem_cons_of_mem _ hq)) (by simp)]

theorem not_mem_dmLine (x : Str) (hx : '\n' ∉ x) : '\n' ∉ dmLine x := by
  simp only [dmLine, List.mem_cons, not_or]
  exact ⟨by decide, by decide, by decide, hx⟩

theorem not_mem_loopLine (p : Str) (hp : '\n' ∉ p) : '\n' ∉ loopLine p := by
  simp only [loopLine, List.mem_cons, not_or]
  exact ⟨by decide, by decide, by decide, by decide, by decide, hp⟩

theorem parseLine_dm (x : Str) (hx : ':' ∉ x) : parseLine (dmLine x) = (StepTag.dm, x) := by
  have h1 : strSplit ':' (dmLine x) = [['d', 'm'], x] := by
    rw [show dmLine x = ['d', 'm'] ++ ':' :: x from rfl]
    rw [strSplit_append ':' ['d', 'm'] x (by decide), strSplit_not_mem ':' x hx]
  simp [parseLine, h1]

theorem parseLine_loop (p : Str) (hp : ':' ∉ p) : parseLine (loopLine p) = (StepTag.loop, p) := by
  have h1 : strSplit ':' (loopLine p) = [['l', 'o', 'o', 'p'], p] := by
    rw [show loopLine p = ['l', 'o', 'o', 'p'] ++ ':' :: p from rfl]
    rw [strSplit_append ':' ['l', 'o', 'o', 'p'] p (by decide), strSplit_not_mem ':' p hp]
  simp [parseLine, h1]

theorem unmapLines_dm_fail (env : UnmapEnv) (s : MapState) (x : Str) (rest : List Str)
    (hx : ':' ∉ x) (hfail : env.dmDeleteOk x = false) :
    unmapLines env s (dmLine x :: rest) = ⟨s, false, [Action.dmDelete x]⟩ := by
  simp [unmapLines, parseLine_dm x hx, hfail]

theorem unmapLines_dm_ok (env : UnmapEnv) (s : MapState) (x : Str) (rest : List Str)
    (hx : ':' ∉ x) (hok : env.dmDeleteOk x = true) :
    unmapLines env s (dmLine x :: rest) =
      ⟨(unmapLines env { s with dmDevices := s.dmDevices.erase x } rest).st,
       (unmapLines env { s with dmDevices := s.dmDevices.erase x } rest).ok,
       Action.dmDelete x ::
         (unmapLines env { s with dmDevices := s.dmDevices.erase x } rest).tr⟩ := by
  simp only [unmapLines, parseLine_dm x hx, hok, if_true]

theorem unmapLines_loop_cons (env : UnmapEnv) (s : MapState) (p : Str) (rest : List Str)
    (hp : ':' ∉ p) :
    unmapLines env s (loopLine p :: rest) =
      ⟨(unmapLines env
          (if env.loopDetachOk p then { s with loops := s.loops.erase p } else s) rest).st,
       (unmapLines env
          (if env.loopDetachOk p then { s with loops := s.loops.erase p } else s) rest).ok,
       Action.loopDetach p ::
         (unmapLines env
            (if env.loopDetachOk p then { s with loops := s.loops.erase p } else s) rest).tr⟩ := by
  simp only [unmapLines, parseLine_loop p hp]

theorem unmapLines_loops (env : UnmapEnv) (ps : List Str) (hp : ∀ p ∈ ps, ':' ∉ p) :
    ∀ s : MapState, (unmapLines env s (ps.map loopLine)).ok = true ∧
      (unmapLines env s (ps.map loopLine)).tr = ps.map Action.loopDetach := by
  induction ps with
  | nil => intro s; exact ⟨rfl, rfl⟩
  | cons p ps ih =>
    intro s
    rw [List.map_cons, unmapLines_loop_cons env s p _ (hp p (List.mem_cons_self p ps))]
    have h := ih (fun q hq => hp q (List.mem_cons_of_mem _ hq))
      (if env.loopDetachOk p then { s with loops := s.loops.erase p } else s)
    exact ⟨h.1, by rw [List.map_cons]; exact congrArg _ h.2⟩

/-- Claim C3: UnmapImageDevice replays the status record strictly in
recorded order.  For a record consisting of a dm line followed by loop
lines, the device-mapper delete is the first action; when it fails the
unmap returns failure immediately with no loop device touched; when it
succeeds, every loop device is detached in recorded order regardless of
detach failures, and the record removal and property clearing follow, with
the call returning success. -/
theorem c3_unmap_replay_order (env : UnmapEnv) (s : MapState) (name x : Str)
    (ps : List Str) (force : Bool)
    (hx : ':' ∉ x) (hxn : '\n' ∉ x)
    (hp : ∀ p ∈ ps, ':' ∉ p ∧ '\n' ∉ p)
    (hstat : s.statusFile = some (strJoin '\n' (dmLine x :: ps.map loopLine)))
    (hpre : force = true ∨ IsImageMapped name s = true) :
    (env.dmDeleteOk x = false →
      (UnmapImageDevice env name force s).ok = false ∧
      (UnmapImageDevice env name force s).tr = [Action.dmDelete x]) ∧
    (env.dmDeleteOk x = true →
      (UnmapImageDevice env name force s).ok = true ∧
      (UnmapImageDevice env name force s).tr =
        Action.dmDelete x :: ps.map Action.loopDetach ++
          [Action.removeStatus, Action.clearProp]) := by
  have hlines : strSplit '\n' (strJoin '\n' (dmLine x :: ps.map loopLine)) =
      dmLine x :: ps.map loopLine := by
    apply strSplit_join
    · intro l hl
      rcases List.mem_cons.mp hl with h | h
      · exact h ▸ not_mem_dmLine x hxn
      · obtain ⟨p, hp', rfl⟩ := List.mem_map.mp h
        exact not_mem_loopLine p (hp p hp').2
    · simp
  have hguard : (!force && !(IsImageMapped name s)) = false := by
    rcases hpre with h | h <;> simp [h]
  constructor
  · intro hfail
    refine ⟨?_, ?_⟩ <;>
    · simp only [UnmapImageDevice, hguard, hstat, hlines,
        unmapLines_dm_fail env s x _ hx hfail]
      simp
  · intro hok
    have hloops := unmapLines_loops env ps (fun q hq => (hp q hq).1)
      { s with dmDevices := s.dmDevices.erase x }
    rw [hstat] at hloops
    refine ⟨?_, ?_⟩ <;>
    · simp only [UnmapImageDevice, hguard, hstat, hlines,
        unmapLines_dm_ok env s x _ hx hok]
      simp [hloops.1, hloops.2]

/-- Claim C9: when the status record cannot be read, UnmapImageDevice
fails immediately and performs no teardown at all, for both values of the
force flag: the state is unchanged and the action trace is empty. -/
theorem c9_unreadable_status_no_teardown (env : UnmapEnv) (name : Str) (force : Bool)
    (s : MapState) (h : s.statusFile = none) :
    UnmapImageDevice env name force s = ⟨s, false, []⟩ := by
  unfold UnmapImageDevice
  rw [h]
  split <;> rfl

theorem unmapLines_ok_tr_eq (e1 e2 : UnmapEnv) (hdm : e1.dmDeleteOk = e2.dmDeleteOk) :
    ∀ (lines : List Str) (s1 s2 : MapState),
      (unmapLines e1 s1 lines).ok = (unmapLines e2 s2 lines).ok ∧
      (unmapLines e1 s1 lines).tr = (unmapLines e2 s2 lines).tr := by
  intro lines
  induction lines with
  | nil => intro s1 s2; exact ⟨rfl, rfl⟩
  | cons line rest ih =>
    intro s1 s2
    rcases hpl : parseLine line with ⟨t, v⟩
    cases t with
    | dm =>
      by_cases h : e2.dmDeleteOk v = true
      · have h1 : e1.dmDeleteOk v = true := by rw [hdm]; exact h
        simp only [unmapLines, hpl, h, h1, if_true]
        exact ⟨(ih _ _).1, congrArg _ (ih _ _).2⟩
      · have h1 : ¬ e1.dmDeleteOk v = true := by rw [hdm]; exact h
        simp [unmapLines, hpl, if_neg h, if_neg h1]
    | loop =>
      simp only [unmapLines, hpl]
      exact ⟨(ih _ _).1, congrArg _ (ih _ _).2⟩
    | skip =>
      simp only [unmapLines, hpl]
      exact ih _ _

/-- Claim C6 (amended): once UnmapImageDevice passes its mapped-state
precondition and can read the status record, it attempts to remove the
status record and clear the mapped-image property whenever the replay
completed, that is whenever no dm step failed; loop-detach failures and
failures of the removal or clearing themselves never influence the
outcome or the sequence of attempted calls (only the dm-delete oracle
does).  A failed dm delete, however, aborts before either is attempted. -/
theorem c6_remove_and_clear_attempted (e1 e2 : UnmapEnv) (name : Str) (force : Bool)
    (s : MapState) (hdm : e1.dmDeleteOk = e2.dmDeleteOk) :
    ((UnmapImageDevice e1 name force s).ok = (UnmapImageDevice e2 name force s).ok ∧
     (UnmapImageDevice e1 name force s).tr = (UnmapImageDevice e2 name force s).tr) ∧
    ((UnmapImageDevice e1 name force s).ok = true →
      Action.removeStatus ∈ (UnmapImageDevice e1 name force s).tr ∧
      Action.clearProp ∈ (UnmapImageDevice e1 name force s).tr) := by
  constructor
  · rcases Bool.eq_false_or_eq_true (!force && !(IsImageMapped name s)) with hg | hg
    · simp [UnmapImageDevice, hg]
    · cases hs : s.statusFile with
      | none => simp [UnmapImageDevice, hg, hs]
      | some status =>
        have h := unmapLines_ok_tr_eq e1 e2 hdm (strSplit '\n' status) s s
        rcases Bool.eq_false_or_eq_true (unmapLines e1 s (strSplit '\n' status)).ok with
          ho | ho <;>
        · have ho2 := h.1 ▸ ho
          simp [UnmapImageDevice, hg, hs, ho, ho2, h.2]
  · intro hok
    rcases Bool.eq_false_or_eq_true (!force && !(IsImageMapped name s)) with hg | hg
    · simp [UnmapImageDevice, hg] at hok
    · cases hs : s.statusFile with
      | none => simp [UnmapImageDevice, hg, hs] at hok
      | some status =>
        rcases Bool.eq_false_or_eq_true (unmapLines e1 s (strSplit '\n' status)).ok with
          ho | ho
        · simp [UnmapImageDevice, hg, hs, ho]
        · simp [UnmapImageDevice, hg, hs, ho] at hok

/-- A state with a one-step dm status record, a set property, and a live
dm node named x. -/
def sDmOnly : MapState := ⟨some (dmLine "x".toList), "p".toList, ["x".toList], []⟩

/-- Unmap oracles in which every dm delete fails and everything else
succeeds. -/
def uEnvDmFail : UnmapEnv := ⟨fun _ => false, fun _ => true, true, true⟩

/-- Unmap oracles in which every external call succeeds. -/
def uEnvAllOk : UnmapEnv := ⟨fun _ => true, fun _ => true, true, true⟩

/-- Unmap oracles in which loop detaches fail and everything else
succeeds. -/
def uEnvLoopFail : UnmapEnv := ⟨fun _ => true, fun _ => false, true, true⟩

/-- Claim C6 is false as stated: at this input the precondition passes
(the image is mapped), a teardown step fails (the dm delete), and
UnmapImageDevice neither attempts to remove the status record nor to
clear the property: the record and the property survive and neither
action appears in the trace. -/
theorem c6_counterexample :
    IsImageMapped "img".toList sDmOnly = true ∧
    (UnmapImageDevice uEnvDmFail "img".toList false sDmOnly).ok = false ∧
    Action.removeStatus ∉ (UnmapImageDevice uEnvDmFail "img".toList false sDmOnly).tr ∧
    Action.clearProp ∉ (UnmapImageDevice uEnvDmFail "img".toList false sDmOnly).tr ∧
    (UnmapImageDevice uEnvDmFail "img".toList false sDmOnly).st.statusFile =
      some (dmLine "x".toList) ∧
    (UnmapImageDevice uEnvDmFail "img".toList false sDmOnly).st.prop = "p".toList := by
  decide

theorem buildLoopTable_isSome (openOk : Str → Bool) (devSize : Str → Nat)
    (h : ∀ d, openOk d = true) :
    ∀ (ds : List Str) (a b : Nat), (buildLoopTable openOk devSize ds a b).isSome = true := by
  intro ds
  induction ds with
  | nil => intro a b; rfl
  | cons d rest ih =>
    intro a b
    obtain ⟨t, ht⟩ := Option.isSome_iff_exists.mp
      (ih (a + min (devSize d / LP_SECTOR_SIZE) b) (b - min (devSize d / LP_SECTOR_SIZE) b))
    simp only [buildLoopTable, h d, Bool.not_true, Bool.false_eq_true, if_false]
    split
    · rfl
    · rw [ht]; rfl

/-- Claim C7: in both branches cited by the claim, a status-record write
that fails after the device-mapper node was created tears the node back
down and returns failure, leaving the state exactly as before the call:
MapWithDmLinear destroys the logical partition, and MapWithLoopDeviceList
deletes the dm device created over the loop set. -/
theorem c7_ledger_write_failure_tears_down :
    (∀ (env : DmLinearEnv) (name : Str) (s : MapState),
      env.metadataOk = true → env.createOk = true →
      env.writeOk (dmLine name) = false →
      MapWithDmLinear env name s = ⟨s, false, none, []⟩) ∧
    (∀ (env : LoopListEnv) (name : Str) (ds : List Str) (s : MapState),
      env.metadataOk = true → env.partitionFound = true →
      env.partitionSize % LP_SECTOR_SIZE = 0 →
      (∀ d, env.openOk d = true) → env.createDeviceOk = true →
      env.writeOk (strJoin '\n' (dmLine name :: ds.map loopLine)) = false →
      MapWithLoopDeviceList env name ds s = ⟨s, false, none, []⟩) := by
  constructor
  · intro env name s h1 h2 h3
    simp [MapWithDmLinear, h1, h2, h3]
  · intro env name ds s h1 h2 h3 h4 h5 h6
    obtain ⟨t, ht⟩ := Option.isSome_iff_exists.mp
      (buildLoopTable_isSome env.openOk env.devSize h4 ds 0
        (env.partitionSize / LP_SECTOR_SIZE))
    simp [MapWithLoopDeviceList, h1, h2, h3, ht, h5, h6]

/-- The empty initial state: no status record, property unset, no dm
nodes, no loop devices. -/
def sEmpty : MapState := ⟨none, [], [], []⟩

/-- A dm-linear mapping environment in which every external call
succeeds. -/
def dmEnvOk : DmLinearEnv := ⟨true, true, "d".toList, fun _ => true⟩

/-- A loop-device-list environment for an image of 1024 bytes backed by
devices of 512 bytes each, in which every external call succeeds. -/
def loop2ListEnv : LoopListEnv :=
  ⟨true, true, 1024, fun _ => true, fun _ => 512, true, "d".toList, fun _ => true⟩

/-- A loop-path environment with two split files a and b that attach as
loop devices l0 and l1, in which every external call succeeds. -/
def loop2Env : LoopEnv :=
  ⟨some ["a".toList, "b".toList],
   fun f => if f = "a".toList then some "l0".toList
            else if f = "b".toList then some "l1".toList else none,
   fun _ => true, loop2ListEnv, fun _ => true⟩

/-- A MapImageDevice environment that takes the loop-device strategy with
the two-file loop environment, everything succeeding. -/
def mapEnvLoop2 : MapEnv := ⟨true, false, dmEnvOk, loop2Env, true, uEnvAllOk⟩

/-- Claim C1 fails on the code: with two attached loop devices and every
external call succeeding, MapImageDevice succeeds, yet the status record
it leaves is the single line loop:l1 written by the tail of
MapWithLoopDevice, which overwrites the dm-first record that
MapWithLoopDeviceList had written, even though the device-mapper node
over the loop set is live (and is now unrecorded). -/
theorem c1_multi_loop_status_overwritten :
    (MapImageDevice mapEnvLoop2 "img".toList sEmpty).ok = true ∧
    (MapImageDevice mapEnvLoop2 "img".toList sEmpty).st.statusFile =
      some (loopLine "l1".toList) ∧
    (MapImageDevice mapEnvLoop2 "img".toList sEmpty).st.statusFile ≠
      some (strJoin '\n'
        (dmLine "img".toList :: ["l0".toList, "l1".toList].map loopLine)) ∧
    (MapImageDevice mapEnvLoop2 "img".toList sEmpty).st.dmDevices = ["img".toList] := by
  decide

/-- Claim C2 fails on the code: in the same two-loop-device mapping, the
path MapImageDevice delivers is the last loop device l1 (the tail of
MapWithLoopDevice overwrites the path output), not the path d of the
device-mapper node that was created over the loop set and is live. -/
theorem c2_multi_loop_path_is_loop_device :
    (MapImageDevice mapEnvLoop2 "img".toList sEmpty).ok = true ∧
    (MapImageDevice mapEnvLoop2 "img".toList sEmpty).path = some "l1".toList ∧
    (MapImageDevice mapEnvLoop2 "img".toList sEmpty).path ≠ some loop2ListEnv.dmPath ∧
    (MapImageDevice mapEnvLoop2 "img".toList sEmpty).st.dmDevices = ["img".toList] := by
  decide

/-- A MapImageDevice environment taking the two-file loop strategy in
which only the property write fails. -/
def mapEnvLoop2PropFail : MapEnv := ⟨true, false, dmEnvOk, loop2Env, false, uEnvAllOk⟩

/-- Claim C8 fails on the code: under the multi-loop strategy a
SetProperty failure does trigger the forced unmap and failure is
returned, but the forced unmap replays the status record that the tail of
MapWithLoopDevice overwrote with the single line loop:l1, so it detaches
only l1 and removes the record while the device-mapper node img and the
loop device l0 stay live and the image still reports as mapped — not
everything just created is unmapped.  The root cause is the same
status-record overwrite established for claim C1. -/
theorem c8_forced_unmap_leaves_dm_node :
    (MapImageDevice mapEnvLoop2PropFail "img".toList sEmpty).ok = false ∧
    Action.forcedUnmap ∈ (MapImageDevice mapEnvLoop2PropFail "img".toList sEmpty).tr ∧
    (MapImageDevice mapEnvLoop2PropFail "img".toList sEmpty).st.statusFile = none ∧
    (MapImageDevice mapEnvLoop2PropFail "img".toList sEmpty).st.dmDevices =
      ["img".toList] ∧
    "l0".toList ∈ (MapImageDevice mapEnvLoop2PropFail "img".toList sEmpty).st.loops ∧
    IsImageMapped "img".toList
      (MapImageDevice mapEnvLoop2PropFail "img".toList sEmpty).st = true := by
  decide

/-- An Open environment over the two-file loop strategy in which the
mapping succeeds but the read-write descriptor cannot be opened, with
every teardown call succeeding. -/
def openEnvLoop2NoFd : OpenEnv := ⟨mapEnvLoop2, false, uEnvAllOk⟩

/-- Claim C4 (amended): when the mapping succeeds but the read-write
descriptor cannot be opened, MappedDevice Open fails and the mapping is
not left in place: under every strategy, destroying the just-constructed
guard runs the destructor, which invokes UnmapImageDevice on the image
(first conjunct, fully general).  Under the dm-linear strategy that
teardown is complete: no status record, dm node or mapped state survives
(second conjunct).  Under the multi-loop strategy the status record
clobbered by the claim C1 slip makes the destructor teardown partial: the
record is removed and the last loop device detached, but the dm node and
the loop device l0 stay live and the image still reports as mapped (third
conjunct). -/
theorem c4_open_fd_failure_unmaps :
    (∀ (env : OpenEnv) (name : Str) (s : MapState),
      (MapImageDevice env.mapEnv name s).ok = true → env.openFdOk = false →
      (MappedDevice.Open env name s).1 = none ∧
      Action.dtorUnmap ∈ (MappedDevice.Open env name s).2.2) ∧
    (∀ (env : OpenEnv) (name : Str) (s : MapState),
      IsImageMapped name s = false →
      env.mapEnv.getBlockDeviceOk = true → env.mapEnv.canUseDm = true →
      env.mapEnv.dmEnv.metadataOk = true → env.mapEnv.dmEnv.createOk = true →
      env.mapEnv.dmEnv.writeOk (dmLine name) = true → env.mapEnv.setPropOk = true →
      env.openFdOk = false → ':' ∉ name → '\n' ∉ name →
      env.unmapEnv.dmDeleteOk name = true → env.unmapEnv.removeStatusOk = true →
      env.unmapEnv.clearPropOk = true →
      (MappedDevice.Open env name s).1 = none ∧
      Action.dtorUnmap ∈ (MappedDevice.Open env name s).2.2 ∧
      (MappedDevice.Open env name s).2.1.statusFile = none ∧
      (MappedDevice.Open env name s).2.1.dmDevices = s.dmDevices ∧
      IsImageMapped name (MappedDevice.Open env name s).2.1 = false) ∧
    ((MappedDevice.Open openEnvLoop2NoFd "img".toList sEmpty).1 = none ∧
     Action.dtorUnmap ∈ (MappedDevice.Open openEnvLoop2NoFd "img".toList sEmpty).2.2 ∧
     (MappedDevice.Open openEnvLoop2NoFd "img".toList sEmpty).2.1.statusFile = none ∧
     (MappedDevice.Open openEnvLoop2NoFd "img".toList sEmpty).2.1.dmDevices =
       ["img".toList] ∧
     "l0".toList ∈ (MappedDevice.Open openEnvLoop2NoFd "img".toList sEmpty).2.1.loops ∧
     IsImageMapped "img".toList
       (MappedDevice.Open openEnvLoop2NoFd "img".toList sEmpty).2.1 = true) := by
  refine ⟨?_, ?_, by decide⟩
  · intro env name s hok hfd
    constructor
    · simp [MappedDevice.Open, hok, hfd]
    · simp [MappedDevice.Open, hok, hfd]
  · intro env name s hnm hgb hdm hmeta hcreate hwrite hsp hfd hx hxn hdel hrm hcp
    have hprop : s.prop = [] := by
      by_cases h : s.prop = []
      · exact h
      · rw [IsImageMapped, if_neg h] at hnm; cases hnm
    have hnmem : name ∉ s.dmDevices := by
      intro hmem
      rw [IsImageMapped, if_pos hprop] at hnm
      simp [hmem] at hnm
    have hdml : MapWithDmLinear env.mapEnv.dmEnv name s =
        ⟨⟨some (dmLine name), s.prop, name :: s.dmDevices, s.loops⟩, true,
          some env.mapEnv.dmEnv.dmPath, []⟩ := by
      simp [MapWithDmLinear, hmeta, hcreate, hwrite]
    have hmap : MapImageDevice env.mapEnv name s =
        ⟨⟨some (dmLine name), env.mapEnv.dmEnv.dmPath, name :: s.dmDevices, s.loops⟩,
          true, some env.mapEnv.dmEnv.dmPath, []⟩ := by
      simp [MapImageDevice, hnm, hgb, hdm, hdml, hsp]
    have him : IsImageMapped name
        ⟨some (dmLine name), env.mapEnv.dmEnv.dmPath, name :: s.dmDevices, s.loops⟩ =
        true := by
      by_cases hp : env.mapEnv.dmEnv.dmPath = []
      · simp [IsImageMapped, hp]
      · simp [IsImageMapped, hp]
    have hsplit1 : strSplit '\n' (dmLine name) = [dmLine name] :=
      strSplit_not_mem _ _ (not_mem_dmLine name hxn)
    have hun : UnmapImageDevice env.unmapEnv name false
        ⟨some (dmLine name), env.mapEnv.dmEnv.dmPath, name :: s.dmDevices, s.loops⟩ =
        ⟨⟨none, [], s.dmDevices, s.loops⟩, true,
          [Action.dmDelete name, Action.removeStatus, Action.clearProp]⟩ := by
      simp [UnmapImageDevice, him, hsplit1, unmapLines, parseLine_dm name hx, hdel,
        hrm, hcp, List.erase_cons_head]
    have hopen : MappedDevice.Open env name s =
        (none, ⟨none, [], s.dmDevices, s.loops⟩,
          [Action.dtorUnmap, Action.dmDelete name, Action.removeStatus,
            Action.clearProp]) := by
      simp [MappedDevice.Open, hmap, hfd, hun]
    rw [hopen]
    refine ⟨rfl, by simp, rfl, rfl, ?_⟩
    simp [IsImageMapped, hnmem]

/-- A loop environment never consulted by the dm-linear strategy. -/
def loopEnvNone : LoopEnv := ⟨none, fun _ => none, fun _ => true, loop2ListEnv, fun _ => true⟩

/-- A MapImageDevice environment taking the dm-linear strategy with every
external call succeeding. -/
def mapEnvDm : MapEnv := ⟨true, true, dmEnvOk, loopEnvNone, true, uEnvAllOk⟩

/-- An Open environment in which the mapping succeeds but the read-write
descriptor cannot be opened, with every teardown call succeeding. -/
def openEnvNoFd : OpenEnv := ⟨mapEnvDm, false, uEnvAllOk⟩

/-- Claim C4 is false as stated: at this input the mapping succeeds and
only the descriptor open fails, yet after the failed MappedDevice Open
the image is no longer mapped: the destructor of the guard unmapped it
(the status record is gone and IsImageMapped is false), so the mapping is
not left in place. -/
theorem c4_counterexample :
    (MapImageDevice mapEnvDm "img".toList sEmpty).ok = true ∧
    (MappedDevice.Open openEnvNoFd "img".toList sEmpty).1 = none ∧
    (MappedDevice.Open openEnvNoFd "img".toList sEmpty).2.1.statusFile = none ∧
    IsImageMapped "img".toList (MappedDevice.Open openEnvNoFd "img".toList sEmpty).2.1 =
      false ∧
    Action.dtorUnmap ∈ (MappedDevice.Open openEnvNoFd "img".toList sEmpty).2.2 := by
  decide

theorem DeleteBackingImage_mapped (env : DeleteEnv) (st : Store) (q : Str) :
    (DeleteBackingImage env st q).1.mapped = st.mapped := by
  unfold DeleteBackingImage
  split_ifs <;> rfl

theorem DeleteBackingImage_metaExists (env : DeleteEnv) (st : Store) (q : Str) :
    (DeleteBackingImage env st q).1.metadataExists = st.metadataExists := by
  unfold DeleteBackingImage
  split_ifs <;> rfl

theorem DeleteBackingImage_keep (env : DeleteEnv) (st : Store) (q p : Str)
    (hI : p ∉ st.images) (hM : p ∉ st.metaEntries) :
    p ∉ (DeleteBackingImage env st q).1.images ∧
    p ∉ (DeleteBackingImage env st q).1.metaEntries := by
  unfold DeleteBackingImage
  split_ifs <;>
    refine ⟨fun h => hI ?_, fun h => hM ?_⟩ <;>
    first
      | exact h
      | exact List.mem_of_mem_erase h

theorem DeleteBackingImage_nodup (env : DeleteEnv) (st : Store) (q : Str)
    (hI : st.images.Nodup) (hM : st.metaEntries.Nodup) :
    (DeleteBackingImage env st q).1.images.Nodup ∧
    (DeleteBackingImage env st q).1.metaEntries.Nodup := by
  unfold DeleteBackingImage
  split_ifs <;>
    exact ⟨by first | exact hI | exact hI.erase _, by first | exact hM | exact hM.erase _⟩

theorem DeleteBackingImage_deletes (env : DeleteEnv) (st : Store) (p : Str)
    (hnm : p ∉ st.mapped) (hsf : env.removeSplitFilesOk p = true)
    (hrm : env.removeMetadataOk p = true)
    (hI : st.images.Nodup) (hM : st.metaEntries.Nodup) :
    p ∉ (DeleteBackingImage env st p).1.images ∧
    p ∉ (DeleteBackingImage env st p).1.metaEntries := by
  simp only [DeleteBackingImage, if_neg hnm, hsf, hrm, Bool.not_true,
    Bool.false_eq_true, if_false, if_true]
  split_ifs <;> exact ⟨hI.not_mem_erase, hM.not_mem_erase⟩

theorem deleteAll_mapped (env : DeleteEnv) :
    ∀ (ps : List Str) (st : Store), (deleteAllImages env st ps).1.mapped = st.mapped := by
  intro ps
  induction ps with
  | nil => intro st; rfl
  | cons q rest ih =>
    intro st
    simp only [deleteAllImages]
    rw [ih, DeleteBackingImage_mapped]

theorem deleteAll_metaExists (env : DeleteEnv) :
    ∀ (ps : List Str) (st : Store),
      (deleteAllImages env st ps).1.metadataExists = st.metadataExists := by
  intro ps
  induction ps with
  | nil => intro st; rfl
  | cons q rest ih =>
    intro st
    simp only [deleteAllImages]
    rw [ih, DeleteBackingImage_metaExists]

theorem deleteAll_keep (env : DeleteEnv) (p : Str) :
    ∀ (ps : List Str) (st : Store), p ∉ st.images → p ∉ st.metaEntries →
      p ∉ (deleteAllImages env st ps).1.images ∧
      p ∉ (deleteAllImages env st ps).1.metaEntries := by
  intro ps
  induction ps with
  | nil => intro st hI hM; exact ⟨hI, hM⟩
  | cons q rest ih =>
    intro st hI hM
    simp only [deleteAllImages]
    have h := DeleteBackingImage_keep env st q p hI hM
    exact ih _ h.1 h.2

theorem deleteAll_fail (env : DeleteEnv) (a : Str) :
    ∀ (ps : List Str) (st : Store), a ∈ ps → a ∈ st.mapped →
      (deleteAllImages env st ps).2 = false := by
  intro ps
  induction ps with
  | nil => intro st h; cases h
  | cons q rest ih =>
    intro st hmem hmap
    simp only [deleteAllImages]
    rcases List.mem_cons.mp hmem with rfl | h
    · have hd : (DeleteBackingImage env st a).2 = false := by
        unfold DeleteBackingImage
        rw [if_pos hmap]
      rw [hd, Bool.false_and]
    · have hr : (deleteAllImages env (DeleteBackingImage env st q).1 rest).2 = false :=
        ih _ h (by rw [DeleteBackingImage_mapped]; exact hmap)
      rw [hr, Bool.and_false]

theorem deleteAll_deletes (env : DeleteEnv)
    (hsf : ∀ n, env.removeSplitFilesOk n = true)
    (hrm : ∀ n, env.removeMetadataOk n = true) :
    ∀ (ps : List Str) (st : Store), st.images.Nodup → st.metaEntries.Nodup →
      ∀ p ∈ ps, p ∉ st.mapped →
        p ∉ (deleteAllImages env st ps).1.images ∧
        p ∉ (deleteAllImages env st ps).1.metaEntries := by
  intro ps
  induction ps with
  | nil => intro st _ _ p hp; cases hp
  | cons q rest ih =>
    intro st hI hM p hp hpm
    simp only [deleteAllImages]
    rcases List.mem_cons.mp hp with rfl | h
    · have hdel := DeleteBackingImage_deletes env st p hpm (hsf p) (hrm p) hI hM
      exact deleteAll_keep env p rest _ hdel.1 hdel.2
    · have hnod := DeleteBackingImage_nodup env st q hI hM
      exact ih _ hnod.1 hnod.2 p h
        (by rw [DeleteBackingImage_mapped]; exact hpm)

/-- Claim C5 (amended): on a metadata store mixing deletable images with
an image whose deletion fails because it is mapped, RemoveAllImages
deletes every deletable image and returns overall failure, but does not
attempt removal of the metadata store itself: the final ok AND
RemoveAllMetadata short-circuits, so the metadata store survives whenever
any per-image deletion failed. -/
theorem c5_remove_all_short_circuits (env : RemoveAllEnv) (store : Store) (a : Str)
    (hex : store.metadataExists = true) (hopen : env.openMetadataOk = true)
    (hsf : ∀ n, env.del.removeSplitFilesOk n = true)
    (hrm : ∀ n, env.del.removeMetadataOk n = true)
    (hI : store.images.Nodup) (hM : store.metaEntries.Nodup)
    (ha : a ∈ store.partitions) (ham : a ∈ store.mapped) :
    (RemoveAllImages env store).ok = false ∧
    (RemoveAllImages env store).metaRemovalAttempted = false ∧
    (RemoveAllImages env store).store.metadataExists = true ∧
    ∀ p ∈ store.partitions, p ∉ store.mapped →
      p ∉ (RemoveAllImages env store).store.images ∧
      p ∉ (RemoveAllImages env store).store.metaEntries := by
  have hfail := deleteAll_fail env.del a store.partitions store ha ham
  have heq : RemoveAllImages env store =
      ⟨(deleteAllImages env.del store store.partitions).1, false, false⟩ := by
    simp [RemoveAllImages, hex, hopen, hfail]
  rw [heq]
  refine ⟨rfl, rfl, ?_, ?_⟩
  · rw [show (RemoveAllRes.mk (deleteAllImages env.del store store.partitions).1
        false false).store = (deleteAllImages env.del store store.partitions).1 from rfl]
    rw [deleteAll_metaExists]
    exact hex
  · intro p hp hpm
    exact deleteAll_deletes env.del hsf hrm store.partitions store hI hM p hp hpm

/-- A store listing three images A, B, C of which only A is mapped; all
three have backing files and metadata entries, and no status records. -/
def storeABC : Store :=
  ⟨true, ["A".toList, "B".toList, "C".toList], ["A".toList],
   ["A".toList, "B".toList, "C".toList], [],
   ["A".toList, "B".toList, "C".toList]⟩

/-- Removal oracles in which every external call succeeds. -/
def raEnvOk : RemoveAllEnv := ⟨⟨fun _ => true, fun _ => true, fun _ => true⟩, true, true⟩

/-- Claim C5 is false as stated: with images A (mapped), B and C, the
deletable images B and C are removed and the call fails overall, but
removal of the metadata store is never attempted (the short-circuit in
ok AND RemoveAllMetadata skips it), and the store still exists. -/
theorem c5_counterexample :
    (RemoveAllImages raEnvOk storeABC).ok = false ∧
    (RemoveAllImages raEnvOk storeABC).metaRemovalAttempted = false ∧
    (RemoveAllImages raEnvOk storeABC).store.metadataExists = true ∧
    (RemoveAllImages raEnvOk storeABC).store.images = ["A".toList] ∧
    (RemoveAllImages raEnvOk storeABC).store.metaEntries = ["A".toList] := by
  decide

/-- Claim C10: the three failure branches of CreateBackingImage behave
asymmetrically.  When UpdateMetadata fails, the call returns failure and
performs no rollback: the just-allocated backing files stay on disk and
no metadata entry is added.  By contrast the device-mapper-rejection
branch removes the split files it created, and the zero-fill-failure
branch deletes the whole image, backing files and metadata entry alike. -/
theorem c10_update_metadata_failure_no_rollback :
    (∀ (env : CreateEnv) (store : Store) (name : Str) (zf : Bool),
      env.splitCreateOk = true →
      (strStarts dmBlockDevPrefix env.devicePath &&
        !(strStarts kTestImageMetadataDir env.metadataDir)) = false →
      env.updateMetadataOk = false →
      CreateBackingImage env store name zf =
        ({ store with images := name :: store.images }, false)) ∧
    (∀ (env : CreateEnv) (store : Store) (name : Str) (zf : Bool),
      env.splitCreateOk = true →
      (strStarts dmBlockDevPrefix env.devicePath &&
        !(strStarts kTestImageMetadataDir env.metadataDir)) = true →
      CreateBackingImage env store name zf = (store, false)) ∧
    (∀ (env : CreateEnv) (store : Store) (name : Str),
      env.splitCreateOk = true →
      (strStarts dmBlockDevPrefix env.devicePath &&
        !(strStarts kTestImageMetadataDir env.metadataDir)) = false →
      env.updateMetadataOk = true → env.zeroFillOk = false →
      name ∉ store.mapped → env.del.removeSplitFilesOk name = true →
      env.del.removeMetadataOk name = true →
      (CreateBackingImage env store name true).1.images = store.images ∧
      (CreateBackingImage env store name true).1.metaEntries = store.metaEntries ∧
      (CreateBackingImage env store name true).2 = false) := by
  refine ⟨?_, ?_, ?_⟩
  · intro env store name zf h1 h2 h3
    simp [CreateBackingImage, h1, h2, h3]
  · intro env store name zf h1 h2
    simp [CreateBackingImage, h1, h2, List.erase_cons_head]
  · intro env store name h1 h2 h3 h4 hnm hsf hrm
    simp only [CreateBackingImage, h1, h2, h3, h4, Bool.not_true, Bool.not_false,
      Bool.false_eq_true, if_false, if_true]
    simp only [DeleteBackingImage, if_neg hnm, hsf, hrm, Bool.not_true,
      Bool.false_eq_true, if_false, if_true]
    split_ifs <;> simp [List.erase_cons_head]

/-- A state holding a three-step status record (dm x, loop A, loop B),
with the property set and the dm node x live. -/
def sThree : MapState :=
  ⟨some (strJoin '\n' (dmLine "x".toList :: ["A".toList, "B".toList].map loopLine)),
   "p".toList, ["x".toList], ["A".toList, "B".toList]⟩

theorem c3_unmap_replay_order_witness :
    (UnmapImageDevice uEnvLoopFail "img".toList false sThree).ok = true ∧
    (UnmapImageDevice uEnvLoopFail "img".toList false sThree).tr =
      Action.dmDelete "x".toList ::
        ["A".toList, "B".toList].map Action.loopDetach ++
        [Action.removeStatus, Action.clearProp] :=
  (c3_unmap_replay_order uEnvLoopFail sThree "img".toList "x".toList
    ["A".toList, "B".toList] false (by decide) (by decide) (by decide) rfl
    (Or.inr (by decide))).2 rfl

theorem c4_open_fd_failure_unmaps_witness :
    ((MappedDevice.Open openEnvNoFd "img".toList sEmpty).1 = none ∧
     Action.dtorUnmap ∈ (MappedDevice.Open openEnvNoFd "img".toList sEmpty).2.2) ∧
    ((MappedDevice.Open openEnvNoFd "img".toList sEmpty).1 = none ∧
     Action.dtorUnmap ∈ (MappedDevice.Open openEnvNoFd "img".toList sEmpty).2.2 ∧
     (MappedDevice.Open openEnvNoFd "img".toList sEmpty).2.1.statusFile = none ∧
     (MappedDevice.Open openEnvNoFd "img".toList sEmpty).2.1.dmDevices =
       sEmpty.dmDevices ∧
     IsImageMapped "img".toList
       (MappedDevice.Open openEnvNoFd "img".toList sEmpty).2.1 = false) :=
  ⟨c4_open_fd_failure_unmaps.1 openEnvNoFd "img".toList sEmpty (by decide) rfl,
   c4_open_fd_failure_unmaps.2.1 openEnvNoFd "img".toList sEmpty (by decide) rfl rfl
     rfl rfl rfl rfl rfl (by decide) (by decide) rfl rfl rfl⟩

theorem c5_remove_all_short_circuits_witness :
    (RemoveAllImages raEnvOk storeABC).ok = false ∧
    (RemoveAllImages raEnvOk storeABC).metaRemovalAttempted = false ∧
    (RemoveAllImages raEnvOk storeABC).store.metadataExists = true ∧
    ∀ p ∈ storeABC.partitions, p ∉ storeABC.mapped →
      p ∉ (RemoveAllImages raEnvOk storeABC).store.images ∧
      p ∉ (RemoveAllImages raEnvOk storeABC).store.metaEntries :=
  c5_remove_all_short_circuits raEnvOk storeABC "A".toList rfl rfl (fun _ => rfl)
    (fun _ => rfl) (by decide) (by decide) (by decide) (by decide)

theorem c6_remove_and_clear_attempted_witness :
    ((UnmapImageDevice uEnvAllOk "img".toList true sDmOnly).ok =
       (UnmapImageDevice uEnvLoopFail "img".toList true sDmOnly).ok ∧
     (UnmapImageDevice uEnvAllOk "img".toList true sDmOnly).tr =
       (UnmapImageDevice uEnvLoopFail "img".toList true sDmOnly).tr) ∧
    ((UnmapImageDevice uEnvAllOk "img".toList true sDmOnly).ok = true →
      Action.removeStatus ∈ (UnmapImageDevice uEnvAllOk "img".toList true sDmOnly).tr ∧
      Action.clearProp ∈ (UnmapImageDevice uEnvAllOk "img".toList true sDmOnly).tr) :=
  c6_remove_and_clear_attempted uEnvAllOk uEnvLoopFail "img".toList true sDmOnly rfl

/-- A dm-linear environment whose status write always fails. -/
def dmEnvWriteFail : DmLinearEnv := ⟨true, true, "d".toList, fun _ => false⟩

/-- A loop-list environment whose status write always fails. -/
def loopListWriteFail : LoopListEnv :=
  ⟨true, true, 1024, fun _ => true, fun _ => 512, true, "d".toList, fun _ => false⟩

theorem c7_ledger_write_failure_tears_down_witness :
    MapWithDmLinear dmEnvWriteFail "img".toList sEmpty = ⟨sEmpty, false, none, []⟩ ∧
    MapWithLoopDeviceList loopListWriteFail "img".toList
      ["l0".toList, "l1".toList] sEmpty = ⟨sEmpty, false, none, []⟩ :=
  ⟨c7_ledger_write_failure_tears_down.1 dmEnvWriteFail "img".toList sEmpty rfl rfl rfl,
   c7_ledger_write_failure_tears_down.2 loopListWriteFail "img".toList
     ["l0".toList, "l1".toList] sEmpty rfl rfl (by decide) (fun _ => rfl) rfl rfl⟩

theorem c9_unreadable_status_no_teardown_witness :
    UnmapImageDevice uEnvAllOk "img".toList true sEmpty = ⟨sEmpty, false, []⟩ :=
  c9_unreadable_status_no_teardown uEnvAllOk "img".toList true sEmpty rfl

/-- A creation environment in which only UpdateMetadata fails. -/
def createEnvUpdFail : CreateEnv :=
  ⟨true, "/dev/sda1".toList, "/metadata/gsi/dsu".toList, false, true,
   ⟨fun _ => true, fun _ => true, fun _ => true⟩⟩

/-- A creation environment whose backing device resolves to a
device-mapper node, outside the test metadata directory. -/
def createEnvDmReject : CreateEnv :=
  ⟨true, "/dev/block/dm-3".toList, "/metadata/gsi/dsu".toList, true, true,
   ⟨fun _ => true, fun _ => true, fun _ => true⟩⟩

/-- A creation environment in which only the zero-fill pass fails. -/
def createEnvZeroFail : CreateEnv :=
  ⟨true, "/dev/sda1".toList, "/metadata/gsi/dsu".toList, true, false,
   ⟨fun _ => true, fun _ => true, fun _ => true⟩⟩

theorem c10_update_metadata_failure_no_rollback_witness :
    CreateBackingImage createEnvUpdFail storeABC "D".toList false =
      ({ storeABC with images := "D".toList :: storeABC.images }, false) ∧
    CreateBackingImage createEnvDmReject storeABC "D".toList false =
      (storeABC, false) ∧
    ((CreateBackingImage createEnvZeroFail storeABC "D".toList true).1.images =
        storeABC.images ∧
     (CreateBackingImage createEnvZeroFail storeABC "D".toList true).1.metaEntries =
        storeABC.metaEntries ∧
     (CreateBackingImage createEnvZeroFail storeABC "D".toList true).2 = false) :=
  ⟨c10_update_metadata_failure_no_rollback.1 createEnvUpdFail storeABC "D".toList
     false rfl (by decide) rfl,
   c10_update_metadata_failure_no_rollback.2.1 createEnvDmReject storeABC "D".toList
     false rfl (by decide),
   c10_update_metadata_failure_no_rollback.2.2 createEnvZeroFail storeABC "D".toList
     rfl (by decide) rfl rfl (by decide) rfl rfl⟩

end Fiemap
